import Mathlib

/-!
# Nessy MOS 6502 core — shallow embedding and verification

A shallow embedding of the CPU core in `src/mos6502.rs` of the Nessy
repository, together with theorems checking the natural-language
specification against it.

Machine integers are modelled as `Nat` with explicit `% 2^w` where the
source relies on wrapping (`wrapping_add`/`wrapping_sub` and `u8`-typed
storage); a plain Rust `+`/`-` (which is an error condition on overflow)
is modelled as `Option`/an explicit failure marker.  Rust `panic!` /
`unimplemented!` sites are modelled as explicit error values.
-/

namespace Nessy

/-! ## Register set (`RegisterSet`, mos6502.rs lines 76-129)

The status byte is bit-addressed via the `bit!`/`bit_setter!` macros:
`(status & (1 << n)) != 0` to read, `(status & !(1 << n)) | (v << n)` to
write.  On `u8`, `!(1 << n)` is `255 - (1 << n)` for `n ≤ 7`. -/

/-- Bit `n` of a packed `u8` field: `(s & (1 << n)) != 0`. -/
def getBit (n s : Nat) : Bool := (s &&& (1 <<< n)) != 0

/-- Write bit `n` of a packed `u8` field: `(s & !(1 << n)) | (v << n)`. -/
def setBitFn (n : Nat) (v : Bool) (s : Nat) : Nat :=
  (s &&& (255 - (1 <<< n))) ||| ((if v then 1 else 0) <<< n)

structure RegisterSet where
  accumulator : Nat
  x_index : Nat
  y_index : Nat
  stk_ptr : Nat
  prog_counter : Nat
  status : Nat
deriving Repr, DecidableEq

namespace RegisterSet

/-- `RegisterSet::new` (lines 88-97). -/
def new : RegisterSet :=
  { accumulator := 0
    x_index := 0
    y_index := 0
    stk_ptr := 0xfd
    prog_counter := 0
    status := 0x24 }

/-- `RegisterSet::new_custompc` (lines 99-104). -/
def new_custompc (custom_prog_counter : Nat) : RegisterSet :=
  { new with prog_counter := custom_prog_counter }

def carry (r : RegisterSet) : Bool := getBit 0 r.status
def zero (r : RegisterSet) : Bool := getBit 1 r.status
def irq_disabled (r : RegisterSet) : Bool := getBit 2 r.status
def decimal_mode (r : RegisterSet) : Bool := getBit 3 r.status
def brk (r : RegisterSet) : Bool := getBit 4 r.status
def unused (r : RegisterSet) : Bool := getBit 5 r.status
def overflowed (r : RegisterSet) : Bool := getBit 6 r.status
def negative (r : RegisterSet) : Bool := getBit 7 r.status

def set_carry (r : RegisterSet) (v : Bool) : RegisterSet :=
  { r with status := setBitFn 0 v r.status }
def set_zero (r : RegisterSet) (v : Bool) : RegisterSet :=
  { r with status := setBitFn 1 v r.status }
def set_irq_disabled (r : RegisterSet) (v : Bool) : RegisterSet :=
  { r with status := setBitFn 2 v r.status }
def set_decimal_mode (r : RegisterSet) (v : Bool) : RegisterSet :=
  { r with status := setBitFn 3 v r.status }
def set_brk (r : RegisterSet) (v : Bool) : RegisterSet :=
  { r with status := setBitFn 4 v r.status }
def set_unused (r : RegisterSet) (v : Bool) : RegisterSet :=
  { r with status := setBitFn 5 v r.status }
def set_overflowed (r : RegisterSet) (v : Bool) : RegisterSet :=
  { r with status := setBitFn 6 v r.status }
def set_negative (r : RegisterSet) (v : Bool) : RegisterSet :=
  { r with status := setBitFn 7 v r.status }

end RegisterSet

/-! ## Timing state (`Timings`, lines 131-143) -/

structure Timings where
  elapsed : Nat
  residual : Nat
deriving Repr, DecidableEq

/-- `Timings::next` (lines 138-143): `residual -= 1; elapsed += 1`.
`residual` is a `u8`; the decrement is a plain Rust `-=`, whose
underflow is an error condition, modelled as `none`.  `elapsed` is a
`u64` counter, modelled with its wrap-around width made explicit. -/
def Timings.next (t : Timings) : Option Timings :=
  if t.residual = 0 then none
  else some { elapsed := (t.elapsed + 1) % 18446744073709551616
              residual := t.residual - 1 }

/-! ## Interrupt latches and kinds (lines 145-156) -/

structure InterruptHandling where
  pending_nmi : Bool
  pending_irq : Bool
deriving Repr, DecidableEq

inductive InterruptKind
  | Nmi
  | Irq
deriving Repr, DecidableEq

/-- Jump vectors (lines 163-166). -/
def NMI_VECTOR : Nat := 0xfffa
def RESET_VECTOR : Nat := 0xfffc
def IRQ_VECTOR : Nat := 0xfffe
def BRK_VECTOR : Nat := 0xfffe

/-! ## Addressing modes, addressing output, instruction record -/

inductive AddressingMode
  | Imp | Imm | Zp0 | Zpx | Zpy | Abs | Abx | Aby | Ind | Iny | Inx | Rel
deriving Repr, DecidableEq

inductive AddressingOutput
  | Fetched (value : Nat) (address : Nat)
  | ValueOnly (value : Nat)
  | AbsoluteAddress (word : Nat)
  | NotExecuted
deriving Repr, DecidableEq

/-- The decode record (`Instruction`, lines 622-654).  The two function
pointers (`amode_fun`, `fun`) refer to the addressing-mode and
operation modules, which are not part of the sources; the state machine
below takes those two behaviours as parameters instead. -/
structure Instruction where
  amode : AddressingMode
  time : Nat
  mnemonic : String
  size : Nat
  operand : Option Nat := none
  amode_output : AddressingOutput := .NotExecuted
  loaded_from : Nat := 0
deriving Repr, DecidableEq

/-- `make_instr!` (lines 553-568). -/
def mkInstr (amode : AddressingMode) (time : Nat) (mnemonic : String)
    (size : Nat) : Instruction :=
  { amode := amode
    time := time
    mnemonic := mnemonic
    size := size
    operand := none
    amode_output := .NotExecuted
    loaded_from := 0x0000 }

/-! ## The main bus (`MainBus`, lines 498-547)

`mem` is a 0x10000-entry `Vec<u8>`; the `% 256` below reflects the `u8`
element type, and `65536` is `self.mem.len()`. -/

structure MainBus where
  mem : Nat → Nat

namespace MainBus

def new : MainBus := { mem := fun _ => 0 }

/-- `MainBus::read` (lines 515-521). -/
def read (b : MainBus) (address : Nat) : Option Nat :=
  if address < 65536 then some (b.mem address % 256) else none

/-- `MainBus::write` (lines 523-530). -/
def write (b : MainBus) (address data : Nat) : MainBus :=
  if address < 65536 then
    { mem := fun a => if a = address then data % 256 else b.mem a }
  else b

end MainBus

/-! ## The CPU (`Cpu`, lines 173-216) -/

structure Cpu where
  regset : RegisterSet
  time : Timings
  inter : InterruptHandling
  bus_conn : Option MainBus
  i : Option Instruction

namespace Cpu

/-- `Cpu::new` (lines 290-304). -/
def new : Cpu :=
  { regset := RegisterSet.new
    time := { elapsed := 0, residual := 0 }
    inter := { pending_irq := false, pending_nmi := false }
    bus_conn := none
    i := none }

/-- `Cpu::new_connected` (lines 308-313). -/
def new_connected (bus_conn : Option MainBus) : Cpu :=
  { new with bus_conn := bus_conn }

/-- `Cpu::new_custompc` (lines 315-320). -/
def new_custompc (custom_prog_counter : Nat) : Cpu :=
  { new with regset := RegisterSet.new_custompc custom_prog_counter }

def pc (cpu : Cpu) : Nat := cpu.regset.prog_counter

/-- `Cpu::inc_pc` (lines 247-251): post-fix `wrapping_add(1)` on the
`u16` program counter, returning the old value. -/
def inc_pc (cpu : Cpu) : Nat × Cpu :=
  (cpu.regset.prog_counter,
   { cpu with regset :=
      { cpu.regset with
          prog_counter := (cpu.regset.prog_counter + 1) % 65536 } })

/-- `Cpu::read_byte` (lines 431-438): degrades to 0 with no bus or a
failed bus read. -/
def read_byte (cpu : Cpu) (address : Nat) : Nat :=
  match cpu.bus_conn with
  | some bus =>
      match bus.read address with
      | some data => data
      | none => 0
  | none => 0

/-- `Cpu::writ_byte` (lines 443-447): no-op with no bus. -/
def writ_byte (cpu : Cpu) (address data : Nat) : Cpu :=
  match cpu.bus_conn with
  | some bus => { cpu with bus_conn := some (bus.write address data) }
  | none => cpu

/-- `Cpu::read_word` (lines 452-456).  The high-byte address is
`address + 1` with the plain (non-wrapping) `u16` addition, whose
overflow is an error condition; `none` models that overflow. -/
def read_word (cpu : Cpu) (address : Nat) : Option Nat :=
  if address + 1 < 65536 then
    some (cpu.read_byte address + 256 * cpu.read_byte (address + 1))
  else none

/-- `Cpu::fetch` (lines 474-477). -/
def fetch (cpu : Cpu) : Nat × Cpu :=
  let (pc, cpu) := cpu.inc_pc
  (cpu.read_byte pc, cpu)

/-! ## Stack primitives (`STACK_OFFSET` and lines 1033-1068) -/

/-- `Cpu::stk_ptr_inc` (lines 1036-1040): `wrapping_add(1)` on the `u8`
stack pointer, returning the **new** value. -/
def stk_ptr_inc (cpu : Cpu) : Nat × Cpu :=
  let new := (cpu.regset.stk_ptr + 1) % 256
  (new, { cpu with regset := { cpu.regset with stk_ptr := new } })

/-- `Cpu::stk_ptr_dec` (lines 1042-1046): `wrapping_sub(1)` on the `u8`
stack pointer, returning the **old** value. -/
def stk_ptr_dec (cpu : Cpu) : Nat × Cpu :=
  let old := cpu.regset.stk_ptr
  (old, { cpu with regset := { cpu.regset with stk_ptr := (old + 255) % 256 } })

/-- `Cpu::stk_push` (lines 1050-1054): `STACK_OFFSET` is 0x100. -/
def stk_push (cpu : Cpu) (data : Nat) : Cpu :=
  let (stk_ptr, cpu) := cpu.stk_ptr_dec
  cpu.writ_byte (256 + stk_ptr) data

/-- `Cpu::stk_doublepush` (lines 1056-1059): high byte first, then low
byte; `(data >> 8) as u8` and `data as u8` truncate the `u16`. -/
def stk_doublepush (cpu : Cpu) (data : Nat) : Cpu :=
  let cpu := cpu.stk_push ((data >>> 8) % 256)
  cpu.stk_push (data % 256)

/-- `Cpu::stk_pop` (lines 1063-1068). -/
def stk_pop (cpu : Cpu) : Nat × Cpu :=
  let (stk_ptr, cpu) := cpu.stk_ptr_inc
  (cpu.read_byte (256 + stk_ptr), cpu)

/-! ## Interrupt handling and reset (lines 361-409) -/

/-- `Cpu::inthandle` (lines 368-392).  The `none` branch cannot fire
(the vector reads are at 0xFFFA/0xFFFE, below the `read_word` overflow
point); it is kept so that `read_word` is embedded once, faithfully. -/
def inthandle (cpu : Cpu) (int : InterruptKind) : Option (Bool × Cpu) :=
  if int = InterruptKind.Irq ∧ cpu.regset.irq_disabled = true then
    some (false, cpu)
  else
    let prog_counter := cpu.regset.prog_counter
    let cpu := cpu.stk_doublepush prog_counter
    let cpu := { cpu with regset := cpu.regset.set_brk false }
    let cpu := { cpu with regset := cpu.regset.set_unused true }
    let cpu := { cpu with regset := cpu.regset.set_irq_disabled true }
    let status := cpu.regset.status
    let cpu := cpu.stk_push status
    let vt : Nat × Nat :=
      match int with
      | InterruptKind.Nmi => (0xFFFA, 8)
      | InterruptKind.Irq => (0xFFFE, 7)
    match cpu.read_word vt.1 with
    | some new_pc =>
        some (true,
          { cpu with
              regset := { cpu.regset with prog_counter := new_pc }
              time := { cpu.time with residual := vt.2 } })
    | none => none

/-- `Cpu::reset` (lines 398-409): starts from `RegisterSet::new`, then
sets status to 0x00, the program counter to 0x8000, the unused flag,
and the timing state to 8 residual cycles. -/
def reset (cpu : Cpu) : Cpu :=
  let regset := RegisterSet.new
  let regset := { regset with status := 0x00 }
  let regset := { regset with prog_counter := 0x8000 }
  let regset := regset.set_unused true
  { cpu with regset := regset, time := { residual := 8, elapsed := 0 } }

end Cpu

/-! ## Decode table (`Instruction::decode_by`, lines 786-968)

Illegal opcodes hit `make_illegal!` = `unimplemented!()`, a Rust panic,
modelled as `none`.  The operation/addressing functions named in each
`make_instr!` row live in the `mos6502_instruction_set` /
`mos6502_addressing_modes` modules, which are not among the sources;
only the data carried by the row is embedded. -/

def Instruction.decode_by (opcode : Nat) : Option Instruction :=
  match opcode with
  | 0x00 => some (mkInstr .Imp 7 "brk" 1)
  | 0x01 => some (mkInstr .Inx 6 "ora" 2)
  | 0x05 => some (mkInstr .Zp0 3 "ora" 2)
  | 0x06 => some (mkInstr .Zp0 5 "asl" 2)
  | 0x08 => some (mkInstr .Imp 3 "php" 1)
  | 0x09 => some (mkInstr .Imm 2 "ora" 2)
  | 0x0A => some (mkInstr .Imp 2 "asl" 1)
  | 0x0D => some (mkInstr .Abs 4 "ora" 3)
  | 0x0E => some (mkInstr .Abs 6 "asl" 3)
  | 0x10 => some (mkInstr .Rel 2 "bpl" 2)
  | 0x11 => some (mkInstr .Iny 5 "ora" 2)
  | 0x15 => some (mkInstr .Zpx 4 "ora" 2)
  | 0x16 => some (mkInstr .Zpx 6 "asl" 2)
  | 0x18 => some (mkInstr .Imp 2 "clc" 1)
  | 0x19 => some (mkInstr .Aby 4 "ora" 3)
  | 0x1D => some (mkInstr .Abx 4 "ora" 3)
  | 0x1E => some (mkInstr .Abx 7 "asl" 3)
  | 0x20 => some (mkInstr .Abs 6 "jsr" 3)
  | 0x21 => some (mkInstr .Inx 6 "and" 2)
  | 0x24 => some (mkInstr .Zp0 3 "bit" 2)
  | 0x25 => some (mkInstr .Zp0 3 "and" 2)
  | 0x26 => some (mkInstr .Zp0 5 "rol" 2)
  | 0x28 => some (mkInstr .Imp 4 "plp" 1)
  | 0x29 => some (mkInstr .Imm 2 "and" 2)
  | 0x2A => some (mkInstr .Imp 2 "rol" 1)
  | 0x2C => some (mkInstr .Abs 4 "bit" 3)
  | 0x2D => some (mkInstr .Abs 4 "and" 3)
  | 0x2E => some (mkInstr .Abs 6 "rol" 3)
  | 0x30 => some (mkInstr .Rel 2 "bmi" 2)
  | 0x31 => some (mkInstr .Iny 5 "and" 2)
  | 0x35 => some (mkInstr .Zpx 4 "and" 2)
  | 0x36 => some (mkInstr .Zpx 6 "rol" 2)
  | 0x38 => some (mkInstr .Imp 2 "sec" 1)
  | 0x39 => some (mkInstr .Aby 4 "and" 3)
  | 0x3D => some (mkInstr .Abx 4 "and" 3)
  | 0x3E => some (mkInstr .Abx 7 "rol" 3)
  | 0x40 => some (mkInstr .Imp 6 "rti" 1)
  | 0x41 => some (mkInstr .Inx 6 "eor" 2)
  | 0x45 => some (mkInstr .Zp0 3 "eor" 2)
  | 0x46 => some (mkInstr .Zp0 5 "lsr" 2)
  | 0x48 => some (mkInstr .Imp 3 "pha" 1)
  | 0x49 => some (mkInstr .Imm 2 "eor" 2)
  | 0x4A => some (mkInstr .Imp 2 "lsr" 1)
  | 0x4C => some (mkInstr .Abs 3 "jmp" 3)
  | 0x4D => some (mkInstr .Abs 4 "eor" 3)
  | 0x4E => some (mkInstr .Abs 6 "lsr" 3)
  | 0x50 => some (mkInstr .Rel 2 "bvc" 2)
  | 0x51 => some (mkInstr .Iny 5 "eor" 2)
  | 0x55 => some (mkInstr .Zpx 4 "eor" 2)
  | 0x56 => some (mkInstr .Zpx 6 "lsr" 2)
  | 0x58 => some (mkInstr .Imp 2 "cli" 1)
  | 0x59 => some (mkInstr .Aby 4 "eor" 3)
  | 0x5D => some (mkInstr .Abx 4 "eor" 3)
  | 0x5E => some (mkInstr .Abx 7 "lsr" 3)
  | 0x60 => some (mkInstr .Imp 6 "rts" 1)
  | 0x61 => some (mkInstr .Inx 6 "adc" 2)
  | 0x65 => some (mkInstr .Zp0 3 "adc" 2)
  | 0x66 => some (mkInstr .Zp0 5 "ror" 2)
  | 0x68 => some (mkInstr .Imp 4 "pla" 1)
  | 0x69 => some (mkInstr .Imm 2 "adc" 2)
  | 0x6A => some (mkInstr .Imp 2 "ror" 1)
  | 0x6C => some (mkInstr .Ind 5 "jmp" 3)
  | 0x6D => some (mkInstr .Abs 4 "adc" 3)
  | 0x6E => some (mkInstr .Abx 7 "ror" 3)
  | 0x70 => some (mkInstr .Rel 2 "bvs" 2)
  | 0x71 => some (mkInstr .Iny 5 "adc" 2)
  | 0x75 => some (mkInstr .Zpx 4 "adc" 2)
  | 0x76 => some (mkInstr .Zpx 6 "ror" 2)
  | 0x78 => some (mkInstr .Imp 2 "sei" 1)
  | 0x79 => some (mkInstr .Aby 4 "adc" 3)
  | 0x7D => some (mkInstr .Abx 4 "adc" 3)
  | 0x7E => some (mkInstr .Abs 6 "ror" 6)
  | 0x81 => some (mkInstr .Inx 6 "sta" 2)
  | 0x84 => some (mkInstr .Zp0 3 "sty" 2)
  | 0x85 => some (mkInstr .Zp0 3 "sta" 2)
  | 0x86 => some (mkInstr .Zp0 3 "stx" 2)
  | 0x88 => some (mkInstr .Imp 2 "dey" 1)
  | 0x8A => some (mkInstr .Imp 2 "txa" 1)
  | 0x8C => some (mkInstr .Abs 4 "sty" 3)
  | 0x8D => some (mkInstr .Abs 4 "sta" 3)
  | 0x8E => some (mkInstr .Abs 4 "stx" 3)
  | 0x90 => some (mkInstr .Rel 2 "bcc" 2)
  | 0x91 => some (mkInstr .Iny 6 "sta" 2)
  | 0x94 => some (mkInstr .Zpx 4 "sty" 2)
  | 0x95 => some (mkInstr .Zpx 4 "sta" 2)
  | 0x96 => some (mkInstr .Zpy 4 "stx" 2)
  | 0x98 => some (mkInstr .Imp 2 "tya" 1)
  | 0x99 => some (mkInstr .Aby 5 "sta" 3)
  | 0x9A => some (mkInstr .Imp 2 "txs" 1)
  | 0x9D => some (mkInstr .Abx 5 "sta" 3)
  | 0xA0 => some (mkInstr .Imm 2 "ldy" 2)
  | 0xA1 => some (mkInstr .Inx 6 "lda" 2)
  | 0xA2 => some (mkInstr .Imm 2 "ldx" 2)
  | 0xA4 => some (mkInstr .Zp0 3 "ldy" 2)
  | 0xA5 => some (mkInstr .Zp0 3 "lda" 2)
  | 0xA6 => some (mkInstr .Zp0 3 "lda" 2)
  | 0xA8 => some (mkInstr .Imp 2 "tay" 1)
  | 0xA9 => some (mkInstr .Imm 2 "lda" 2)
  | 0xAA => some (mkInstr .Imp 2 "tax" 1)
  | 0xAC => some (mkInstr .Abs 4 "ldy" 3)
  | 0xAD => some (mkInstr .Abs 4 "lda" 3)
  | 0xAE => some (mkInstr .Abs 4 "ldx" 3)
  | 0xB0 => some (mkInstr .Rel 2 "bcs" 2)
  | 0xB1 => some (mkInstr .Iny 5 "lda" 2)
  | 0xB4 => some (mkInstr .Zpx 4 "ldy" 2)
  | 0xB5 => some (mkInstr .Zpx 4 "lda" 2)
  | 0xB6 => some (mkInstr .Zpy 4 "ldx" 2)
  | 0xB8 => some (mkInstr .Imp 2 "clv" 1)
  | 0xB9 => some (mkInstr .Aby 4 "lda" 3)
  | 0xBA => some (mkInstr .Imp 2 "tsx" 1)
  | 0xBC => some (mkInstr .Abx 4 "ldy" 3)
  | 0xBD => some (mkInstr .Abx 4 "lda" 3)
  | 0xBE => some (mkInstr .Aby 4 "ldx" 3)
  | 0xC0 => some (mkInstr .Imm 2 "cpy" 2)
  | 0xC1 => some (mkInstr .Inx 6 "cmp" 2)
  | 0xC4 => some (mkInstr .Zp0 3 "cpy" 2)
  | 0xC5 => some (mkInstr .Zp0 3 "cmp" 2)
  | 0xC6 => some (mkInstr .Zp0 5 "dec" 2)
  | 0xC8 => some (mkInstr .Imp 2 "iny" 1)
  | 0xC9 => some (mkInstr .Imm 2 "cmp" 2)
  | 0xCA => some (mkInstr .Imp 2 "dex" 1)
  | 0xCC => some (mkInstr .Abs 4 "cpy" 3)
  | 0xCD => some (mkInstr .Abs 4 "cmp" 3)
  | 0xCE => some (mkInstr .Abs 6 "dec" 3)
  | 0xD0 => some (mkInstr .Rel 2 "bne" 2)
  | 0xD1 => some (mkInstr .Iny 5 "cmp" 2)
  | 0xD5 => some (mkInstr .Zpx 4 "cmp" 2)
  | 0xD6 => some (mkInstr .Zpx 6 "dec" 2)
  | 0xD8 => some (mkInstr .Imp 2 "cld" 1)
  | 0xD9 => some (mkInstr .Aby 4 "cmp" 3)
  | 0xDD => some (mkInstr .Abx 4 "cmp" 3)
  | 0xDE => some (mkInstr .Abx 7 "dec" 3)
  | 0xE0 => some (mkInstr .Imm 2 "cpx" 2)
  | 0xE1 => some (mkInstr .Inx 6 "sbc" 2)
  | 0xE4 => some (mkInstr .Zp0 3 "cpx" 2)
  | 0xE5 => some (mkInstr .Zp0 3 "sbc" 2)
  | 0xE6 => some (mkInstr .Zp0 5 "inc" 2)
  | 0xE8 => some (mkInstr .Imp 2 "inx" 1)
  | 0xE9 => some (mkInstr .Imm 2 "sbc" 2)
  | 0xEA => some (mkInstr .Imp 2 "nop" 1)
  | 0xEC => some (mkInstr .Abs 4 "cpx" 3)
  | 0xED => some (mkInstr .Abs 4 "sbc" 3)
  | 0xEE => some (mkInstr .Abs 6 "inc" 3)
  | 0xF0 => some (mkInstr .Rel 2 "beq" 2)
  | 0xF1 => some (mkInstr .Iny 5 "sbc" 2)
  | 0xF5 => some (mkInstr .Zpx 4 "sbc" 2)
  | 0xF6 => some (mkInstr .Zpx 6 "inc" 2)
  | 0xF8 => some (mkInstr .Imp 2 "sed" 1)
  | 0xF9 => some (mkInstr .Aby 4 "sbc" 3)
  | 0xFD => some (mkInstr .Abx 4 "sbc" 3)
  | 0xFE => some (mkInstr .Abx 7 "inc" 3)
  | _ => none

/-! ## Operand loading and the clock cycle (lines 337-359, 1142-1176) -/

/-- The operand-byte count per addressing mode, exactly the
`num_fetched` match of `load_operand_curr_i` (lines 1156-1160). -/
def operand_bytes : AddressingMode → Nat
  | .Imp => 0
  | .Imm | .Zp0 | .Zpx | .Zpy | .Inx | .Iny | .Rel => 1
  | .Abs | .Abx | .Aby | .Ind => 2

/-- `load_operand_curr_i` (lines 1142-1176).  `cpu.pc() - 1` is a plain
`u16` subtraction whose underflow (pc = 0) is an error condition,
modelled as `none`. -/
def load_operand_curr_i (cpu : Cpu) : Option Cpu :=
  match cpu.i with
  | none => some cpu
  | some i0 =>
    if cpu.pc = 0 then none
    else
      let loaded_from := cpu.pc - 1
      let oc : Option Nat × Cpu :=
        match operand_bytes i0.amode with
        | 0 => (none, cpu)
        | 1 =>
          let (b, cpu) := cpu.fetch
          (some b, cpu)
        | _ =>
          let (lo, cpu) := cpu.fetch
          let (hi, cpu) := cpu.fetch
          (some (lo + 256 * hi), cpu)
      some { oc.2 with
               i := some { i0 with loaded_from := loaded_from
                                   operand := oc.1 } }

/-- The behaviour of an addressing-mode function (`AddressingModeFn`):
it may mutate the CPU and yields an `AddressingOutput`, or fails.
Modelled from the spec: the twelve resolver bodies live in the
`mos6502_addressing_modes` module, which is not among the sources;
§4.3 of the spec allows them to charge page-cross cycle penalties and
§7 allows them to fail with an addressing error. -/
def AmodeFn : Type := Cpu → Option (AddressingOutput × Cpu)

/-- The behaviour of an operation function (`InstructionFn`).
Modelled from the spec: the ~56 operation bodies live in the
`mos6502_instruction_set` module, which is not among the sources; §4.4
of the spec lets them mutate registers/flags/memory and fail with a
structural error. -/
def ExecFn : Type := Cpu → Option Cpu

/-- The distinct Rust panic sites reachable from `Cpu::clock_cycle`. -/
inductive CyclePanic
  /-- `make_illegal!()` = `unimplemented!()` inside `decode_by`. -/
  | IllegalOpcode
  /-- `panic!("Failed addressing")` (line 349). -/
  | FailedAddressing
  /-- `panic!("Failed executing")` (line 354). -/
  | FailedExecuting
  /-- underflow of `cpu.pc() - 1` in `load_operand_curr_i`. -/
  | PcSubOverflow
  /-- underflow of `residual -= 1` in `Timings::next`. -/
  | ResidualSubOverflow
deriving Repr, DecidableEq

/-- `Cpu::clock_cycle` (lines 337-359), with the addressing-mode and
operation behaviour passed in as `amode_fun` / `exec_fun` (their bodies
are outside the sources; `decode_by` only names them).  Every Rust
panic reachable from the source function is an explicit
`Except.error`. -/
def clock_cycle (amode_fun : AmodeFn) (exec_fun : ExecFn) (cpu : Cpu) :
    Except CyclePanic Cpu :=
  if cpu.time.residual = 0 then
    let oc := cpu.fetch
    match Instruction.decode_by oc.1 with
    | none => .error .IllegalOpcode
    | some i =>
      let cpu := { oc.2 with i := some i
                             time := { oc.2.time with residual := i.time } }
      match load_operand_curr_i cpu with
      | none => .error .PcSubOverflow
      | some cpu =>
        match amode_fun cpu with
        | none => .error .FailedAddressing
        | some ac =>
          let cpu :=
            { ac.2 with
                i := ac.2.i.map (fun j => { j with amode_output := ac.1 }) }
          match exec_fun cpu with
          | none => .error .FailedExecuting
          | some cpu =>
            match cpu.time.next with
            | none => .error .ResidualSubOverflow
            | some t => .ok { cpu with time := t }
  else
    match cpu.time.next with
    | none => .error .ResidualSubOverflow
    | some t => .ok { cpu with time := t }

/-- Size-vs-addressing-mode consistency of one decode row, as claim C3
states it: the decoded size equals 1 plus the operand-byte count of the
decoded addressing mode (illegal opcodes hold vacuously). -/
def size_consistent (opcode : Nat) : Bool :=
  match Instruction.decode_by opcode with
  | some i => i.size == 1 + operand_bytes i.amode
  | none => true

/-- Both per-row table facts at once (one table evaluation per opcode):
outside opcode 0x7E the size is 1 plus the operand-byte count, and the
base cycle count is positive; illegal opcodes hold vacuously. -/
def row_ok (opcode : Nat) : Bool :=
  match Instruction.decode_by opcode with
  | some i =>
      (decide (opcode = 0x7E) || (i.size == 1 + operand_bytes i.amode))
        && decide (1 ≤ i.time)
  | none => true

/-! ## Claimed-sequence variants (for refinement comparison only)

These definitions follow the words of the specification (not the
source); they exist solely to be compared with the source-derived
definitions above. -/

/-- Modelled from the spec (§4.6 / claim C1): the interrupt entry as the
specification words the sequence — push PC high then low, then push the
status byte with only the break flag cleared and the unused flag set,
and set the interrupt-disable flag only **after** that push. -/
def inthandle_claimed (cpu : Cpu) (int : InterruptKind) : Option (Bool × Cpu) :=
  if int = InterruptKind.Irq ∧ cpu.regset.irq_disabled = true then
    some (false, cpu)
  else
    let prog_counter := cpu.regset.prog_counter
    let cpu := cpu.stk_doublepush prog_counter
    let cpu := { cpu with regset := cpu.regset.set_brk false }
    let cpu := { cpu with regset := cpu.regset.set_unused true }
    let status := cpu.regset.status
    let cpu := cpu.stk_push status
    let cpu := { cpu with regset := cpu.regset.set_irq_disabled true }
    let vt : Nat × Nat :=
      match int with
      | InterruptKind.Nmi => (0xFFFA, 8)
      | InterruptKind.Irq => (0xFFFE, 7)
    match cpu.read_word vt.1 with
    | some new_pc =>
        some (true,
          { cpu with
              regset := { cpu.regset with prog_counter := new_pc }
              time := { cpu.time with residual := vt.2 } })
    | none => none

/-- Modelled from the spec (§4.7 / claim C4): push as the specification
words it — decrement the pointer first, then write at the stack base
plus the (already decremented) pointer. -/
def stk_push_claimed (cpu : Cpu) (data : Nat) : Cpu :=
  let sp := (cpu.regset.stk_ptr + 255) % 256
  let cpu := { cpu with regset := { cpu.regset with stk_ptr := sp } }
  cpu.writ_byte (256 + sp) data

/-- Modelled from the spec (§4.7 / claim C4): pop as the specification
words it — read at the stack base plus the current pointer, then
increment the pointer. -/
def stk_pop_claimed (cpu : Cpu) : Nat × Cpu :=
  let data := cpu.read_byte (256 + cpu.regset.stk_ptr)
  (data,
   { cpu with regset :=
      { cpu.regset with stk_ptr := (cpu.regset.stk_ptr + 1) % 256 } })

/-! ## Concrete fixtures used by counterexamples and witnesses -/

/-- A bus whose memory holds 0x90 at 0xFFFD (so the reset vector word at
0xFFFC reads as 0x9000), 7 at 0x1FE and 5 at 0x1FD, and 0 elsewhere. -/
def busFix : MainBus :=
  { mem := fun a =>
      if a = 0xFFFD then 0x90 else if a = 0x1FE then 7 else
      if a = 0x1FD then 5 else 0 }

/-- A connected CPU with `busFix`, program counter 0x1234 and an
all-clear status byte (interrupt-disable clear). -/
def cpuFix : Cpu :=
  { Cpu.new_connected (some busFix) with
      regset := { RegisterSet.new_custompc 0x1234 with status := 0x00 } }

/-- An addressing-mode behaviour that always fails (per spec §7,
`BadAddressing` is among the error kinds a resolver may report). -/
def amodeFailing : AmodeFn := fun _ => none

/-- An addressing-mode behaviour that succeeds without touching the
CPU. -/
def amodeInert : AmodeFn := fun cpu => some (AddressingOutput.NotExecuted, cpu)

/-- An operation behaviour that succeeds without touching the CPU. -/
def execInert : ExecFn := fun cpu => some cpu

/-- An operation behaviour that always fails. -/
def execFailing : ExecFn := fun _ => none

end Nessy

namespace Nessy

/-! ## First theorems: bus absence (C8) and `read_word` totality (C10) -/

/-- C8: for every CPU with no bus interface attached and every address
and byte, a byte read returns 0 and a byte write is a no-op that
changes no CPU state. -/
theorem read_byte_writ_byte_headless (cpu : Cpu) (address data : Nat)
    (h : cpu.bus_conn = none) :
    cpu.read_byte address = 0 ∧ cpu.writ_byte address data = cpu := by
  constructor
  · unfold Cpu.read_byte
    rw [h]
  · unfold Cpu.writ_byte
    rw [h]

/-- Witness for `read_byte_writ_byte_headless`: the freshly constructed
CPU has no bus, reads 0 and ignores writes. -/
theorem read_byte_writ_byte_headless_witness :
    Cpu.new.read_byte 0x1234 = 0 ∧ Cpu.new.writ_byte 0x1234 0xAB = Cpu.new :=
  read_byte_writ_byte_headless Cpu.new 0x1234 0xAB rfl

/-- C10: the 16-bit word read computes the high-byte address as
`address + 1` with non-wrapping 16-bit addition, so at input 0xFFFF it
is not total (the addition overflows the address type) rather than
wrapping around to read the high byte from 0x0000; at every other
address it reads the two little-endian bytes. -/
theorem read_word_not_total_at_top (cpu : Cpu) (address : Nat) :
    cpu.read_word 0xFFFF = none ∧
    (address + 1 < 65536 →
      cpu.read_word address =
        some (cpu.read_byte address + 256 * cpu.read_byte (address + 1))) := by
  constructor
  · unfold Cpu.read_word
    simp
  · intro h
    unfold Cpu.read_word
    rw [if_pos h]

/-- Witness for `read_word_not_total_at_top` at address 0. -/
theorem read_word_not_total_at_top_witness :
    Cpu.new.read_word 0xFFFF = none ∧ Cpu.new.read_word 0 = some 0 :=
  ⟨(read_word_not_total_at_top Cpu.new 0).1,
   (read_word_not_total_at_top Cpu.new 0).2 (by decide)⟩

/-! ## Helper lemmas about the bus and stack primitives -/

theorem MainBus.write_mem (bus : MainBus) (a d x : Nat) (ha : a < 65536) :
    (bus.write a d).mem x = if x = a then d % 256 else bus.mem x := by
  unfold MainBus.write
  rw [if_pos ha]

theorem read_byte_eq (cpu : Cpu) (bus : MainBus) (a : Nat)
    (hb : cpu.bus_conn = some bus) (ha : a < 65536) :
    cpu.read_byte a = bus.mem a % 256 := by
  unfold Cpu.read_byte MainBus.read
  rw [hb]
  simp [ha]

theorem read_byte_lt_256 (cpu : Cpu) (a : Nat) : cpu.read_byte a < 256 := by
  unfold Cpu.read_byte MainBus.read
  cases hb : cpu.bus_conn with
  | none => simp only [hb]; omega
  | some bus =>
    simp only [hb]
    by_cases ha : a < 65536
    · simp only [ha, if_true]
      exact Nat.mod_lt _ (by omega)
    · simp only [ha, if_false]
      omega

theorem writ_byte_connected (cpu : Cpu) (bus : MainBus) (a d : Nat)
    (hb : cpu.bus_conn = some bus) :
    cpu.writ_byte a d = { cpu with bus_conn := some (bus.write a d) } := by
  unfold Cpu.writ_byte
  rw [hb]

theorem stk_push_eq (cpu : Cpu) (bus : MainBus) (d : Nat)
    (hb : cpu.bus_conn = some bus) :
    cpu.stk_push d =
      { cpu with
          regset :=
            { cpu.regset with stk_ptr := (cpu.regset.stk_ptr + 255) % 256 }
          bus_conn := some (bus.write (256 + cpu.regset.stk_ptr) d) } := by
  unfold Cpu.stk_push Cpu.stk_ptr_dec
  exact writ_byte_connected _ bus _ _ hb

theorem stk_pop_spec (cpu : Cpu) (bus : MainBus)
    (hb : cpu.bus_conn = some bus) :
    (cpu.stk_pop).1 =
      bus.mem (256 + (cpu.regset.stk_ptr + 1) % 256) % 256 ∧
    (cpu.stk_pop).2 =
      { cpu with regset :=
          { cpu.regset with stk_ptr := (cpu.regset.stk_ptr + 1) % 256 } } := by
  unfold Cpu.stk_pop Cpu.stk_ptr_inc
  refine ⟨?_, rfl⟩
  exact read_byte_eq _ bus _ hb (by omega)

/-! ## The decode table, row by row (16-opcode chunks) -/

set_option maxRecDepth 8192 in
theorem row_ok_all_0 : ∀ opc, opc < 16 → row_ok opc = true := by
  decide

set_option maxRecDepth 8192 in
theorem row_ok_all_1 : ∀ opc, opc < 32 → 16 ≤ opc → row_ok opc = true := by
  decide

set_option maxRecDepth 8192 in
theorem row_ok_all_2 : ∀ opc, opc < 48 → 32 ≤ opc → row_ok opc = true := by
  decide

set_option maxRecDepth 8192 in
theorem row_ok_all_3 : ∀ opc, opc < 64 → 48 ≤ opc → row_ok opc = true := by
  decide

set_option maxRecDepth 8192 in
theorem row_ok_all_4 : ∀ opc, opc < 80 → 64 ≤ opc → row_ok opc = true := by
  decide

set_option maxRecDepth 8192 in
theorem row_ok_all_5 : ∀ opc, opc < 96 → 80 ≤ opc → row_ok opc = true := by
  decide

set_option maxRecDepth 8192 in
theorem row_ok_all_6 : ∀ opc, opc < 112 → 96 ≤ opc → row_ok opc = true := by
  decide

set_option maxRecDepth 8192 in
theorem row_ok_all_7 : ∀ opc, opc < 128 → 112 ≤ opc → row_ok opc = true := by
  decide

set_option maxRecDepth 8192 in
theorem row_ok_all_8 : ∀ opc, opc < 144 → 128 ≤ opc → row_ok opc = true := by
  decide

set_option maxRecDepth 8192 in
theorem row_ok_all_9 : ∀ opc, opc < 160 → 144 ≤ opc → row_ok opc = true := by
  decide

set_option maxRecDepth 8192 in
theorem row_ok_all_10 : ∀ opc, opc < 176 → 160 ≤ opc → row_ok opc = true := by
  decide

set_option maxRecDepth 8192 in
theorem row_ok_all_11 : ∀ opc, opc < 192 → 176 ≤ opc → row_ok opc = true := by
  decide

set_option maxRecDepth 8192 in
theorem row_ok_all_12 : ∀ opc, opc < 208 → 192 ≤ opc → row_ok opc = true := by
  decide

set_option maxRecDepth 8192 in
theorem row_ok_all_13 : ∀ opc, opc < 224 → 208 ≤ opc → row_ok opc = true := by
  decide

set_option maxRecDepth 8192 in
theorem row_ok_all_14 : ∀ opc, opc < 240 → 224 ≤ opc → row_ok opc = true := by
  decide

set_option maxRecDepth 8192 in
theorem row_ok_all_15 : ∀ opc, opc < 256 → 240 ≤ opc → row_ok opc = true := by
  decide

theorem row_ok_all (opc : Nat) (h : opc < 256) : row_ok opc = true := by
  by_cases h0 : opc < 16
  · exact row_ok_all_0 opc h0
  by_cases h1 : opc < 32
  · exact row_ok_all_1 opc h1 (by omega)
  by_cases h2 : opc < 48
  · exact row_ok_all_2 opc h2 (by omega)
  by_cases h3 : opc < 64
  · exact row_ok_all_3 opc h3 (by omega)
  by_cases h4 : opc < 80
  · exact row_ok_all_4 opc h4 (by omega)
  by_cases h5 : opc < 96
  · exact row_ok_all_5 opc h5 (by omega)
  by_cases h6 : opc < 112
  · exact row_ok_all_6 opc h6 (by omega)
  by_cases h7 : opc < 128
  · exact row_ok_all_7 opc h7 (by omega)
  by_cases h8 : opc < 144
  · exact row_ok_all_8 opc h8 (by omega)
  by_cases h9 : opc < 160
  · exact row_ok_all_9 opc h9 (by omega)
  by_cases h10 : opc < 176
  · exact row_ok_all_10 opc h10 (by omega)
  by_cases h11 : opc < 192
  · exact row_ok_all_11 opc h11 (by omega)
  by_cases h12 : opc < 208
  · exact row_ok_all_12 opc h12 (by omega)
  by_cases h13 : opc < 224
  · exact row_ok_all_13 opc h13 (by omega)
  by_cases h14 : opc < 240
  · exact row_ok_all_14 opc h14 (by omega)
  exact row_ok_all_15 opc h (by omega)

/-- Unpack `row_ok` for a decoded row. -/
theorem row_ok_spec (opc : Nat) (i : Instruction)
    (hdec : Instruction.decode_by opc = some i)
    (h : row_ok opc = true) :
    (opc = 0x7E ∨ i.size = 1 + operand_bytes i.amode) ∧ 1 ≤ i.time := by
  unfold row_ok at h
  rw [hdec] at h
  simp only [Bool.and_eq_true, Bool.or_eq_true, decide_eq_true_eq,
             beq_iff_eq] at h
  exact h

/-! ## C2: interrupt masking -/

/-- C2: with the interrupt-disable flag set, raising an IRQ returns
false and leaves the whole CPU state (registers, stack, everything)
unchanged; raising an NMI returns true regardless of that flag. -/
theorem inthandle_irq_masked_nmi_always (cpu : Cpu) :
    (cpu.regset.irq_disabled = true →
      cpu.inthandle InterruptKind.Irq = some (false, cpu)) ∧
    ∃ cpu', cpu.inthandle InterruptKind.Nmi = some (true, cpu') := by
  constructor
  · intro h
    unfold Cpu.inthandle
    rw [if_pos ⟨rfl, h⟩]
  · unfold Cpu.inthandle
    rw [if_neg (by simp)]
    exact ⟨_, rfl⟩

/-- Witness for `inthandle_irq_masked_nmi_always`: the freshly
constructed CPU has the interrupt-disable flag set (status 0x24), so an
IRQ is refused with the state unchanged, while an NMI is accepted. -/
theorem inthandle_irq_masked_nmi_always_witness :
    Cpu.new.inthandle InterruptKind.Irq = some (false, Cpu.new) ∧
    ∃ cpu', Cpu.new.inthandle InterruptKind.Nmi = some (true, cpu') :=
  ⟨(inthandle_irq_masked_nmi_always Cpu.new).1 rfl,
   (inthandle_irq_masked_nmi_always Cpu.new).2⟩

/-! ## C7: reset -/

/-- C7 counterexample: after `reset` the status byte is 0x20 (only the
unused flag), not the claimed 0x24, and the program counter is the
constant 0x8000 even though the word at the reset-vector address
0xFFFC reads as 0x9000 on this bus — the vector is never consulted. -/
theorem reset_claim_counterexample :
    (cpuFix.reset).regset.status = 0x20 ∧ (0x20 : Nat) ≠ 0x24 ∧
    (cpuFix.reset).regset.prog_counter = 0x8000 ∧
    cpuFix.read_word RESET_VECTOR = some 0x9000 ∧
    (0x8000 : Nat) ≠ 0x9000 := by
  refine ⟨rfl, by decide, rfl, rfl, by decide⟩

/-- C7 (amended): after `reset`, the accumulator, X and Y are 0, the
stack pointer is 0xFD, the status byte is 0x20 (only the unused flag
set — interrupt-disable is cleared), the program counter is the fixed
constant 0x8000 (the reset vector at 0xFFFC is not read), the residual
cycle counter is 8 and the elapsed counter is 0; the bus connection,
interrupt latches and current-instruction slot are untouched. -/
theorem reset_characterization (cpu : Cpu) :
    cpu.reset =
      { cpu with
          regset :=
            { accumulator := 0, x_index := 0, y_index := 0,
              stk_ptr := 0xFD, prog_counter := 0x8000, status := 0x20 }
          time := { elapsed := 0, residual := 8 } } := rfl

/-! ## C4: stack push/pop ordering -/

/-- C4 counterexample: on `cpuFix` (stack pointer 0xFD, memory holding
7 at 0x1FE and 5 at 0x1FD) the source `stk_pop` increments first and
reads 7 from 0x1FE, while the claimed read-then-increment pop would
read 5 from 0x1FD; and the source `stk_push` writes at the
pre-decrement pointer (0x1FD), leaving 0x1FC untouched, while the
claimed decrement-then-write-at-pointer push would write at 0x1FC. -/
theorem stack_order_counterexample :
    ((cpuFix.stk_pop).1 = 7 ∧ (stk_pop_claimed cpuFix).1 = 5 ∧
     (7 : Nat) ≠ 5) ∧
    ((cpuFix.stk_push 0xAB).read_byte 0x1FC = 0 ∧
     (stk_push_claimed cpuFix 0xAB).read_byte 0x1FC = 0xAB ∧
     (0 : Nat) ≠ 0xAB) := by
  exact ⟨⟨rfl, rfl, by decide⟩, ⟨rfl, rfl, by decide⟩⟩

/-- C4 (amended): a push decrements the stored stack pointer (wrapping
modulo 256, no range check) but writes the byte at the stack base plus
the **pre-decrement** pointer; a pop increments the pointer (wrapping
modulo 256) first and then reads at the stack base plus the
**post-increment** pointer. -/
theorem stack_primitive_order (cpu : Cpu) (bus : MainBus) (data : Nat)
    (hb : cpu.bus_conn = some bus) (hsp : cpu.regset.stk_ptr < 256) :
    ((cpu.stk_push data).regset.stk_ptr = (cpu.regset.stk_ptr + 255) % 256 ∧
     (cpu.stk_push data).read_byte (256 + cpu.regset.stk_ptr) = data % 256 ∧
     (∀ a, a < 65536 → a ≠ 256 + cpu.regset.stk_ptr →
        (cpu.stk_push data).read_byte a = cpu.read_byte a)) ∧
    ((cpu.stk_pop).1 = cpu.read_byte (256 + (cpu.regset.stk_ptr + 1) % 256) ∧
     (cpu.stk_pop).2.regset.stk_ptr = (cpu.regset.stk_ptr + 1) % 256) := by
  have hpush := stk_push_eq cpu bus data hb
  obtain ⟨hpv, hps⟩ := stk_pop_spec cpu bus hb
  have hbc : (cpu.stk_push data).bus_conn
      = some (bus.write (256 + cpu.regset.stk_ptr) data) := by rw [hpush]
  refine ⟨⟨by rw [hpush], ?_, ?_⟩, ?_, by rw [hps]⟩
  · rw [read_byte_eq _ _ _ hbc (by omega),
        MainBus.write_mem _ _ _ _ (by omega), if_pos rfl]
    omega
  · intro a ha hne
    rw [read_byte_eq _ _ _ hbc ha, MainBus.write_mem _ _ _ _ (by omega),
        if_neg hne, read_byte_eq _ _ _ hb ha]
  · rw [hpv, read_byte_eq _ _ _ hb (by omega)]

/-- Witness for `stack_primitive_order` on `cpuFix` (stack pointer
0xFD): the push leaves the pointer at 0xFC, the pop at 0xFE. -/
theorem stack_primitive_order_witness :
    (cpuFix.stk_push 0xAB).regset.stk_ptr = 0xFC ∧
    (cpuFix.stk_pop).2.regset.stk_ptr = 0xFE := by
  obtain ⟨⟨h1, -, -⟩, -, h2⟩ :=
    stack_primitive_order cpuFix busFix 0xAB rfl (by decide)
  exact ⟨h1.trans (by decide), h2.trans (by decide)⟩

/-! ## C5: stack round-trips -/

/-- C5: pushing byte B and then popping yields B and restores the stack
pointer; double-pushing a 16-bit word (high byte first, then low byte)
and then popping the low byte followed by the high byte restores the
original word and the stack pointer. -/
theorem stack_roundtrip (cpu : Cpu) (bus : MainBus) (b w : Nat)
    (hb : cpu.bus_conn = some bus) (hsp : cpu.regset.stk_ptr < 256)
    (hbb : b < 256) (hw : w < 65536) :
    ((cpu.stk_push b).stk_pop.1 = b ∧
     (cpu.stk_push b).stk_pop.2.regset.stk_ptr = cpu.regset.stk_ptr) ∧
    ((cpu.stk_doublepush w).stk_pop.1
        + 256 * (cpu.stk_doublepush w).stk_pop.2.stk_pop.1 = w ∧
     (cpu.stk_doublepush w).stk_pop.2.stk_pop.2.regset.stk_ptr
        = cpu.regset.stk_ptr) := by
  obtain ⟨⟨acc, xv, yv, sp, pcv, st⟩, tm, intr, bc, ii⟩ := cpu
  dsimp only at hsp hb ⊢
  subst hb
  have hshift : w >>> 8 = w / 256 := by
    rw [Nat.shiftRight_eq_div_pow]
  have c1 : 256 + sp < 65536 := by omega
  have c2 : 256 + (sp + 255) % 256 < 65536 := by omega
  have hne : 256 + sp ≠ 256 + (sp + 255) % 256 := by omega
  simp only [Cpu.stk_push, Cpu.stk_ptr_dec, Cpu.stk_ptr_inc, Cpu.stk_pop,
             Cpu.stk_doublepush, Cpu.writ_byte, Cpu.read_byte, MainBus.read,
             MainBus.write, hshift]
  rw [show ((sp + 255) % 256 + 1) % 256 = sp from by omega,
      show (((sp + 255) % 256 + 255) % 256 + 1) % 256 = (sp + 255) % 256
        from by omega]
  rw [show ((sp + 255) % 256 + 1) % 256 = sp from by omega]
  simp only [if_pos c1, if_pos c2, if_neg hne, eq_self_iff_true, if_true]
  refine ⟨⟨?_, ?_⟩, ?_, ?_⟩ <;> first | trivial | omega

/-- Witness for `stack_roundtrip` on `cpuFix` (stack pointer 0xFD):
0xAB round-trips, as does the word 0xBEEF. -/
theorem stack_roundtrip_witness :
    (cpuFix.stk_push 0xAB).stk_pop.1 = 0xAB ∧
    (cpuFix.stk_doublepush 0xBEEF).stk_pop.1
      + 256 * (cpuFix.stk_doublepush 0xBEEF).stk_pop.2.stk_pop.1 = 0xBEEF := by
  obtain ⟨⟨h1, -⟩, h2, -⟩ :=
    stack_roundtrip cpuFix busFix 0xAB 0xBEEF rfl (by decide) (by decide)
      (by decide)
  exact ⟨h1, h2⟩

/-! ## C3: decode-table size consistency -/

/-- C3: at opcode 0x7E the decode table yields an absolute-mode row
whose `size` field is 6, not the 1 + 2 operand bytes = 3 the claim
requires (a slip: 6 is that row's cycle count); every other opcode in
the official table satisfies the claim. -/
theorem decode_size_bug :
    Instruction.decode_by 0x7E
      = some (mkInstr AddressingMode.Abs 6 "ror" 6) ∧
    1 + operand_bytes AddressingMode.Abs = 3 ∧
    size_consistent 0x7E = false ∧
    ∀ opc, opc < 256 → ∀ i, Instruction.decode_by opc = some i →
      opc = 0x7E ∨ i.size = 1 + operand_bytes i.amode :=
  ⟨rfl, rfl, rfl,
   fun opc h256 i h => (row_ok_spec opc i h (row_ok_all opc h256)).1⟩

/-- Witness for the universal part of `decode_size_bug` at opcode
0x10 (bpl, relative, size 2). -/
theorem decode_size_bug_witness :
    (0x10 : Nat) = 0x7E ∨
      (mkInstr AddressingMode.Rel 2 "bpl" 2).size
        = 1 + operand_bytes (mkInstr AddressingMode.Rel 2 "bpl" 2).amode :=
  decode_size_bug.2.2.2 0x10 (by decide) (mkInstr AddressingMode.Rel 2 "bpl" 2)
    rfl

/-! ## C6: failure handling in the clock cycle -/

/-- C6 counterexample: a failing addressing resolution during a clock
cycle does not give a process-survivable local stop — the source hits
`panic!("Failed addressing")` (modelled by the explicit panic marker),
here at the concrete fresh CPU. -/
theorem clock_cycle_panics_counterexample :
    clock_cycle amodeFailing execInert Cpu.new
      = Except.error CyclePanic.FailedAddressing := rfl

/-- C6 (amended): whenever addressing resolution or operation execution
reports failure during a clock cycle, the engine deterministically
panics (Rust `panic!`, a process-level abort) — `Failed addressing`
resp. `Failed executing` — rather than performing a fatal stop local to
the CPU instance. -/
theorem clock_cycle_failure_is_panic (amode_fun : AmodeFn) (exec_fun : ExecFn)
    (cpu c1 : Cpu) (i : Instruction)
    (hres : cpu.time.residual = 0)
    (hdec : Instruction.decode_by (cpu.fetch).1 = some i)
    (hload : load_operand_curr_i
        { (cpu.fetch).2 with
            i := some i
            time := { (cpu.fetch).2.time with residual := i.time } }
      = some c1) :
    (amode_fun c1 = none →
      clock_cycle amode_fun exec_fun cpu
        = Except.error CyclePanic.FailedAddressing) ∧
    (∀ o c2, amode_fun c1 = some (o, c2) →
      exec_fun { c2 with i := c2.i.map (fun j => { j with amode_output := o }) }
        = none →
      clock_cycle amode_fun exec_fun cpu
        = Except.error CyclePanic.FailedExecuting) := by
  constructor
  · intro hfail
    simp only [clock_cycle, if_pos hres, hdec, hload, hfail]
  · intro o c2 hok hfail
    simp only [clock_cycle, if_pos hres, hdec, hload, hok, hfail]

/-- Witness for `clock_cycle_failure_is_panic` at the fresh CPU, whose
first fetch decodes opcode 0x00 (brk). -/
theorem clock_cycle_failure_is_panic_witness :
    clock_cycle amodeFailing execInert Cpu.new
      = Except.error CyclePanic.FailedAddressing :=
  (clock_cycle_failure_is_panic amodeFailing execInert Cpu.new
    { Cpu.new with
        regset := { RegisterSet.new with prog_counter := 1 }
        time := { elapsed := 0, residual := 7 }
        i := some (mkInstr AddressingMode.Imp 7 "brk" 1) }
    (mkInstr AddressingMode.Imp 7 "brk" 1) rfl rfl rfl).1 rfl

/-! ## C9: residual cycle counter never underflows -/

theorem decode_time_pos (opc : Nat) (h : opc < 256) (i : Instruction)
    (hdec : Instruction.decode_by opc = some i) : 1 ≤ i.time :=
  (row_ok_spec opc i hdec (row_ok_all opc h)).2

theorem load_operand_time (cpu c' : Cpu)
    (h : load_operand_curr_i cpu = some c') : c'.time = cpu.time := by
  unfold load_operand_curr_i at h
  cases hi : cpu.i with
  | none =>
    simp only [hi] at h
    injection h with h
    subst h
    rfl
  | some i0 =>
    simp only [hi] at h
    by_cases hpc : cpu.pc = 0
    · rw [if_pos hpc] at h
      exact Option.noConfusion h
    · rw [if_neg hpc] at h
      rcases hob : operand_bytes i0.amode with _ | n
      · simp only [hob] at h
        injection h with h
        subst h
        rfl
      · rcases n with _ | m
        · simp only [hob] at h
          injection h with h
          subst h
          rfl
        · simp only [hob] at h
          injection h with h
          subst h
          rfl

/-- C9: the residual cycle counter never underflows.  A tick that
begins with residual = 0 first reloads residual from the decoded
instruction's base cycle count (positive for every row of the decode
table) before the single decrement, and every successful tick
decrements residual exactly once and increments the elapsed counter
exactly once.  The addressing-mode and operation behaviours are
abstract (their bodies are outside the sources); per spec §4.3/§4.5
they may only add cycle penalties to residual and do not touch elapsed,
which is the `hamode`/`hexec` hypothesis.  Stated over every CPU state,
hence over every state reachable from a freshly constructed CPU. -/
theorem clock_cycle_residual_no_underflow
    (amode_fun : AmodeFn) (exec_fun : ExecFn)
    (hamode : ∀ c o c', amode_fun c = some (o, c') →
        c.time.residual ≤ c'.time.residual ∧
        c'.time.elapsed = c.time.elapsed)
    (hexec : ∀ c c', exec_fun c = some c' →
        c.time.residual ≤ c'.time.residual ∧
        c'.time.elapsed = c.time.elapsed)
    (cpu : Cpu) :
    clock_cycle amode_fun exec_fun cpu
      ≠ Except.error CyclePanic.ResidualSubOverflow ∧
    (∀ cpu', clock_cycle amode_fun exec_fun cpu = Except.ok cpu' →
      cpu'.time.elapsed = (cpu.time.elapsed + 1) % 18446744073709551616 ∧
      (cpu.time.residual ≠ 0 →
        cpu'.time.residual = cpu.time.residual - 1) ∧
      (cpu.time.residual = 0 →
        ∃ i r, Instruction.decode_by (cpu.fetch).1 = some i ∧
          i.time ≤ r ∧ 1 ≤ r ∧ cpu'.time.residual = r - 1)) := by
  by_cases hres : cpu.time.residual = 0
  · cases hdec : Instruction.decode_by (cpu.fetch).1 with
    | none =>
      have hcc : clock_cycle amode_fun exec_fun cpu
          = Except.error CyclePanic.IllegalOpcode := by
        simp only [clock_cycle, if_pos hres, hdec]
      rw [hcc]
      refine ⟨by simp, fun cpu' h => Except.noConfusion h⟩
    | some i =>
      cases hload : load_operand_curr_i
          { (cpu.fetch).2 with
              i := some i
              time := { (cpu.fetch).2.time with residual := i.time } } with
      | none =>
        have hcc : clock_cycle amode_fun exec_fun cpu
            = Except.error CyclePanic.PcSubOverflow := by
          simp only [clock_cycle, if_pos hres, hdec, hload]
        rw [hcc]
        refine ⟨by simp, fun cpu' h => Except.noConfusion h⟩
      | some c1 =>
        cases hamode' : amode_fun c1 with
        | none =>
          have hcc : clock_cycle amode_fun exec_fun cpu
              = Except.error CyclePanic.FailedAddressing := by
            simp only [clock_cycle, if_pos hres, hdec, hload, hamode']
          rw [hcc]
          refine ⟨by simp, fun cpu' h => Except.noConfusion h⟩
        | some ac =>
          obtain ⟨o, c2⟩ := ac
          cases hexec' : exec_fun
              { c2 with
                  i := c2.i.map (fun j => { j with amode_output := o }) } with
          | none =>
            have hcc : clock_cycle amode_fun exec_fun cpu
                = Except.error CyclePanic.FailedExecuting := by
              simp only [clock_cycle, if_pos hres, hdec, hload, hamode',
                         hexec']
            rw [hcc]
            refine ⟨by simp, fun cpu' h => Except.noConfusion h⟩
          | some c3 =>
            have hopc : (cpu.fetch).1 < 256 := read_byte_lt_256 _ _
            have hit : 1 ≤ i.time := decode_time_pos _ hopc i hdec
            have hc1 : c1.time.residual = i.time := by
              rw [load_operand_time _ _ hload]
            have h2 := hamode c1 o c2 hamode'
            have hc2 : ({ c2 with
                i := c2.i.map (fun j => { j with amode_output := o })
                  } : Cpu).time.residual = c2.time.residual := rfl
            have hc2e : ({ c2 with
                i := c2.i.map (fun j => { j with amode_output := o })
                  } : Cpu).time.elapsed = c2.time.elapsed := rfl
            have h3 := hexec _ c3 hexec'
            have hr3 : 1 ≤ c3.time.residual := by omega
            have hnext : c3.time.next
                = some { elapsed :=
                           (c3.time.elapsed + 1) % 18446744073709551616
                         residual := c3.time.residual - 1 } := by
              unfold Timings.next
              rw [if_neg (by omega)]
            have hcc : clock_cycle amode_fun exec_fun cpu
                = Except.ok
                    { c3 with time :=
                        { elapsed :=
                            (c3.time.elapsed + 1) % 18446744073709551616
                          residual := c3.time.residual - 1 } } := by
              simp only [clock_cycle, if_pos hres, hdec, hload, hamode',
                         hexec', hnext]
            rw [hcc]
            have he3 : c3.time.elapsed = cpu.time.elapsed := by
              have he1 : c1.time.elapsed = cpu.time.elapsed := by
                rw [load_operand_time _ _ hload]
                rfl
              omega
            refine ⟨fun h => Except.noConfusion h, fun cpu' h => ?_⟩
            injection h with h
            subst h
            refine ⟨by rw [he3], fun hcon => absurd hres hcon, fun _ => ?_⟩
            exact ⟨i, c3.time.residual, rfl, by omega, hr3, rfl⟩
  · have hnext : cpu.time.next
        = some { elapsed := (cpu.time.elapsed + 1) % 18446744073709551616
                 residual := cpu.time.residual - 1 } := by
      unfold Timings.next
      rw [if_neg hres]
    have hcc : clock_cycle amode_fun exec_fun cpu
        = Except.ok
            { cpu with time :=
                { elapsed := (cpu.time.elapsed + 1) % 18446744073709551616
                  residual := cpu.time.residual - 1 } } := by
      simp only [clock_cycle, if_neg hres, hnext]
    rw [hcc]
    refine ⟨fun h => Except.noConfusion h, fun cpu' h => ?_⟩
    injection h with h
    subst h
    exact ⟨rfl, fun _ => rfl, fun h0 => absurd h0 hres⟩

/-- Witness for `clock_cycle_residual_no_underflow` with the inert
resolver/operation behaviours at the fresh CPU: no underflow panic, and
the tick succeeds. -/
theorem clock_cycle_residual_no_underflow_witness :
    clock_cycle amodeInert execInert Cpu.new
      ≠ Except.error CyclePanic.ResidualSubOverflow ∧
    ∃ c, clock_cycle amodeInert execInert Cpu.new = Except.ok c :=
  ⟨(clock_cycle_residual_no_underflow amodeInert execInert
      (fun c o c' h => by
        simp only [amodeInert, Option.some.injEq, Prod.mk.injEq] at h
        obtain ⟨-, h2⟩ := h
        subst h2
        exact ⟨le_refl _, rfl⟩)
      (fun c c' h => by
        simp only [execInert, Option.some.injEq] at h
        subst h
        exact ⟨le_refl _, rfl⟩)
      Cpu.new).1,
   ⟨_, rfl⟩⟩


/-! ## C1: the interrupt-entry sequence -/

theorem write3_mem_high (bus : MainBus) (a1 a2 a3 d1 d2 d3 x : Nat)
    (h1 : a1 < 512) (h2 : a2 < 512) (h3 : a3 < 512)
    (hx : 512 ≤ x) (hx2 : x < 65536) :
    (((bus.write a1 d1).write a2 d2).write a3 d3).mem x = bus.mem x := by
  rw [MainBus.write_mem _ _ _ _ (by omega), if_neg (by omega),
      MainBus.write_mem _ _ _ _ (by omega), if_neg (by omega),
      MainBus.write_mem _ _ _ _ (by omega), if_neg (by omega)]

theorem write3_mem_other (bus : MainBus) (a1 a2 a3 d1 d2 d3 x : Nat)
    (h1 : x ≠ a1) (h2 : x ≠ a2) (h3 : x ≠ a3)
    (ha1 : a1 < 65536) (ha2 : a2 < 65536) (ha3 : a3 < 65536) :
    (((bus.write a1 d1).write a2 d2).write a3 d3).mem x = bus.mem x := by
  rw [MainBus.write_mem _ _ _ _ ha3, if_neg h3,
      MainBus.write_mem _ _ _ _ ha2, if_neg h2,
      MainBus.write_mem _ _ _ _ ha1, if_neg h1]

/-- C1 counterexample: on `cpuFix` (status 0x00, interrupt-disable
clear, program counter 0x1234, stack pointer 0xFD) the source handler
entry pushes 0x24 as the status byte at 0x1FB — the interrupt-disable
flag is set *before* the status push — while the claimed sequence
(push the status byte with only the break flag cleared and the unused
flag set, and set interrupt-disable only afterwards) pushes 0x20
there. -/
theorem inthandle_order_counterexample :
    Option.map (fun p => (p.2).read_byte 0x1FB)
        (cpuFix.inthandle InterruptKind.Irq) = some 0x24 ∧
    Option.map (fun p => (p.2).read_byte 0x1FB)
        (inthandle_claimed cpuFix InterruptKind.Irq) = some 0x20 ∧
    (0x24 : Nat) ≠ 0x20 := by
  refine ⟨rfl, rfl, by decide⟩

set_option maxRecDepth 8192 in
set_option maxHeartbeats 1600000 in
/-- C1 (amended): for every serviced interrupt (NMI always; IRQ only
when the interrupt-disable flag is clear) on a bus-connected CPU, the
handler entry pushes the program counter high byte (at 0x100 + SP),
then its low byte, then the status byte with the break flag cleared,
the unused flag set AND the interrupt-disable flag set — the flag is
set before the push, so the pushed byte carries it; the status register
keeps that same value; the stack pointer drops by 3 (mod 256); the new
program counter is loaded from the 16-bit little-endian word at the
fixed vector address (0xFFFA for NMI, 0xFFFE for IRQ); the residual
cycle counter becomes 8 for NMI and 7 for IRQ; and nothing else
(accumulator, X, Y, elapsed cycles, the rest of memory) changes. -/
theorem inthandle_serviced_characterization (cpu : Cpu) (bus : MainBus)
    (int : InterruptKind)
    (hb : cpu.bus_conn = some bus)
    (hsp : cpu.regset.stk_ptr < 256)
    (hserv : ¬(int = InterruptKind.Irq ∧ cpu.regset.irq_disabled = true)) :
    ∃ cpu',
      cpu.inthandle int = some (true, cpu') ∧
      cpu'.read_byte (256 + cpu.regset.stk_ptr)
        = (cpu.regset.prog_counter >>> 8) % 256 ∧
      cpu'.read_byte (256 + (cpu.regset.stk_ptr + 255) % 256)
        = cpu.regset.prog_counter % 256 ∧
      cpu'.read_byte (256 + (cpu.regset.stk_ptr + 254) % 256)
        = setBitFn 2 true
            (setBitFn 5 true (setBitFn 4 false cpu.regset.status)) % 256 ∧
      cpu'.regset.status
        = setBitFn 2 true
            (setBitFn 5 true (setBitFn 4 false cpu.regset.status)) ∧
      cpu'.regset.stk_ptr = (cpu.regset.stk_ptr + 253) % 256 ∧
      cpu'.regset.prog_counter
        = bus.mem (if int = InterruptKind.Nmi then 0xFFFA else 0xFFFE) % 256
          + 256 * (bus.mem
              ((if int = InterruptKind.Nmi then 0xFFFA else 0xFFFE) + 1)
                % 256) ∧
      cpu'.time.residual = (if int = InterruptKind.Nmi then 8 else 7) ∧
      cpu'.time.elapsed = cpu.time.elapsed ∧
      cpu'.regset.accumulator = cpu.regset.accumulator ∧
      cpu'.regset.x_index = cpu.regset.x_index ∧
      cpu'.regset.y_index = cpu.regset.y_index ∧
      ∀ a, a < 65536 →
        a ≠ 256 + cpu.regset.stk_ptr →
        a ≠ 256 + (cpu.regset.stk_ptr + 255) % 256 →
        a ≠ 256 + (cpu.regset.stk_ptr + 254) % 256 →
        cpu'.read_byte a = cpu.read_byte a := by
  obtain ⟨⟨acc, xv, yv, sp, pcv, st⟩, ⟨el, res⟩, intr, bc, ii⟩ := cpu
  dsimp only at hsp hserv ⊢
  dsimp only at hb
  subst hb
  cases int with
  | Nmi =>
    unfold Cpu.inthandle
    rw [if_neg (by rintro ⟨hcon, -⟩; exact InterruptKind.noConfusion hcon)]
    refine ⟨_, rfl, ?_, ?_, ?_, ?_, ?_, ?_, ?_, ?_, ?_, ?_, ?_, ?_⟩
    all_goals dsimp only [Cpu.stk_doublepush, Cpu.stk_push, Cpu.stk_ptr_dec,
      Cpu.writ_byte, RegisterSet.set_brk, RegisterSet.set_unused,
      RegisterSet.set_irq_disabled]
    all_goals
      first
      | omega
      | (rw [read_byte_eq _ _ _ rfl (by omega),
             MainBus.write_mem _ _ _ _ (by omega), if_neg (by omega),
             MainBus.write_mem _ _ _ _ (by omega), if_neg (by omega),
             MainBus.write_mem _ _ _ _ (by omega), if_pos rfl]
         omega)
      | (rw [read_byte_eq _ _ _ rfl (by omega),
             MainBus.write_mem _ _ _ _ (by omega), if_neg (by omega),
             MainBus.write_mem _ _ _ _ (by omega), if_pos rfl]
         omega)
      | (rw [read_byte_eq _ _ _ rfl (by omega),
             MainBus.write_mem _ _ _ _ (by omega), if_pos (by omega)]
         omega)
      | (rw [read_byte_eq _ _ _ rfl (by omega),
             read_byte_eq _ _ _ rfl (by omega),
             write3_mem_high _ _ _ _ _ _ _ _ (by omega) (by omega) (by omega)
               (by omega) (by omega),
             write3_mem_high _ _ _ _ _ _ _ _ (by omega) (by omega) (by omega)
               (by omega) (by omega)]
         rfl)
      | rfl
      | skip
    intro a ha h1 h2 h3
    rw [read_byte_eq _ _ _ rfl ha, read_byte_eq _ _ _ rfl ha,
        write3_mem_other _ _ _ _ _ _ _ _ h1 (by omega) (by omega)
          (by omega) (by omega) (by omega)]
  | Irq =>
    unfold Cpu.inthandle
    rw [if_neg hserv]
    refine ⟨_, rfl, ?_, ?_, ?_, ?_, ?_, ?_, ?_, ?_, ?_, ?_, ?_, ?_⟩
    all_goals dsimp only [Cpu.stk_doublepush, Cpu.stk_push, Cpu.stk_ptr_dec,
      Cpu.writ_byte, RegisterSet.set_brk, RegisterSet.set_unused,
      RegisterSet.set_irq_disabled]
    all_goals
      first
      | omega
      | (rw [read_byte_eq _ _ _ rfl (by omega),
             MainBus.write_mem _ _ _ _ (by omega), if_neg (by omega),
             MainBus.write_mem _ _ _ _ (by omega), if_neg (by omega),
             MainBus.write_mem _ _ _ _ (by omega), if_pos rfl]
         omega)
      | (rw [read_byte_eq _ _ _ rfl (by omega),
             MainBus.write_mem _ _ _ _ (by omega), if_neg (by omega),
             MainBus.write_mem _ _ _ _ (by omega), if_pos rfl]
         omega)
      | (rw [read_byte_eq _ _ _ rfl (by omega),
             MainBus.write_mem _ _ _ _ (by omega), if_pos (by omega)]
         omega)
      | (rw [read_byte_eq _ _ _ rfl (by omega),
             read_byte_eq _ _ _ rfl (by omega),
             write3_mem_high _ _ _ _ _ _ _ _ (by omega) (by omega) (by omega)
               (by omega) (by omega),
             write3_mem_high _ _ _ _ _ _ _ _ (by omega) (by omega) (by omega)
               (by omega) (by omega)]
         rfl)
      | rfl
      | skip
    intro a ha h1 h2 h3
    rw [read_byte_eq _ _ _ rfl ha, read_byte_eq _ _ _ rfl ha,
        write3_mem_other _ _ _ _ _ _ _ _ h1 (by omega) (by omega)
          (by omega) (by omega) (by omega)]

/-- Witness for `inthandle_serviced_characterization` on `cpuFix` with
an IRQ: accepted, with residual cycle cost 7. -/
theorem inthandle_serviced_characterization_witness :
    ∃ cpu', cpuFix.inthandle InterruptKind.Irq = some (true, cpu') ∧
      cpu'.time.residual = 7 := by
  obtain ⟨c, hc, -, -, -, -, -, -, hres, -⟩ :=
    inthandle_serviced_characterization cpuFix busFix InterruptKind.Irq rfl
      (by decide) (by decide)
  exact ⟨c, hc, hres⟩

end Nessy
